import Mathlib

/-!
Shallow embedding of the l8e-harbor request dataplane
(`app/core/proxy.py`, `app/models/schemas.py`,
`app/adapters/impl/simple_auth.py`, `app/adapters/impl/memory_routes.py`,
`app/adapters/impl/sqlite_routes.py`) together with theorems checking the
natural-language specification against it.

Machine integers of the source are modelled as `Nat`/`Int`; wall-clock
timestamps (milliseconds) as `Int`; Python dictionaries as association
lists; `datetime` values as `Nat` tick counts.  The float percentage test
`(failures / requests) * 100 >= failure_threshold` of the source is
modelled by the exact rational comparison `failures * 100 ≥ threshold *
requests`.
-/

namespace Harbor

/-! ### Data model (`app/models/schemas.py`) -/

/-- `BackendSpec` (schemas.py): a backend `url` with a `weight`
(pydantic field constraint `ge=1, le=1000`, default 100). -/
structure BackendSpec where
  url : String
  weight : Nat := 100
  deriving DecidableEq, Repr

/-- pydantic validation of `BackendSpec.weight`: `Field(ge=1, le=1000)`. -/
def validBackendWeight (w : Nat) : Bool :=
  1 ≤ w && w ≤ 1000

/-- `RetryPolicy` (schemas.py): `max_retries`, `backoff_ms`, and a list of
`retry_on` tokens drawn from `{"5xx", "gateway-error", "timeout"}`. -/
structure RetryPolicy where
  max_retries : Nat := 0
  backoff_ms : Nat := 100
  retry_on : List String := []
  deriving DecidableEq, Repr

/-- `CircuitBreakerSpec` (schemas.py): threshold percentage,
minimum request count and open-state timeout. -/
structure CircuitBreakerSpec where
  failure_threshold : Nat := 50
  minimum_requests : Nat := 20
  timeout_ms : Int := 30000
  deriving DecidableEq, Repr

/-- `MatcherSpec` (schemas.py): a route matcher.  The source schema has
exactly the three fields `name`, `value`, `op`; there is no separate
`key` field. -/
structure MatcherSpec where
  name : String
  value : String := ""
  op : String := "equals"
  deriving DecidableEq, Repr

/-- `RouteSpec` (schemas.py), restricted to the fields the dataplane
reads.  `created_at` is a timestamp modelled as a `Nat`. -/
structure RouteSpec where
  id : String
  path : String
  methods : List String
  backends : List BackendSpec
  priority : Nat := 0
  retry_policy : RetryPolicy := {}
  circuit_breaker : CircuitBreakerSpec := {}
  matchers : Option (List MatcherSpec) := none
  created_at : Nat := 0
  deriving DecidableEq, Repr

/-- The part of an incoming HTTP request the dataplane inspects:
method, path, and the header / query-parameter / cookie maps
(association lists standing for the Starlette structures). -/
structure HRequest where
  method : String
  path : String
  headers : List (String × String) := []
  queryParams : List (String × String) := []
  cookies : List (String × String) := []
  deriving DecidableEq, Repr

/-- Dictionary lookup (`dict.get(k)`): first value bound to `k`. -/
def dictGet (k : String) (d : List (String × String)) : Option String :=
  (d.find? (fun p => p.1 == k)).map Prod.snd

/-- Dictionary lookup with default `""` (`dict.get(k, "")`). -/
def dictGetD (k : String) (d : List (String × String)) : String :=
  (dictGet k d).getD ""

/-- Python's substring test `a in b`. -/
def strIn (a b : String) : Bool :=
  decide (a.toList <:+: b.toList)

/-- Python's `s.startswith(pre)`, over the character lists. -/
def pyStartsWith (s pre : String) : Bool :=
  decide (pre.toList <+: s.toList)

/-- Python's slice `s[n:]`, over the character lists. -/
def pyDrop (s : String) (n : Nat) : String :=
  ⟨s.toList.drop n⟩

/-! ### Circuit breaker (`app/core/proxy.py`, class `CircuitBreaker`) -/

inductive CBState where
  | closed
  | open
  | halfOpen
  deriving DecidableEq, Repr

/-- The mutable state of one `CircuitBreaker` instance: its constructor
configuration plus `failures`, `requests`, `last_failure_time`, `state`. -/
structure CircuitBreaker where
  failure_threshold : Nat
  minimum_requests : Nat
  timeout_ms : Int
  failures : Nat := 0
  requests : Nat := 0
  last_failure_time : Int := 0
  state : CBState := .closed
  deriving DecidableEq, Repr

/-- `CircuitBreaker.__init__`. -/
def CircuitBreaker.init (cfg : CircuitBreakerSpec) : CircuitBreaker :=
  { failure_threshold := cfg.failure_threshold
    minimum_requests := cfg.minimum_requests
    timeout_ms := cfg.timeout_ms }

/-- `CircuitBreaker.can_execute(self)` at wall-clock time `now` (ms):
returns the decision together with the (possibly updated) breaker,
since the OPEN → HALF_OPEN transition mutates `self.state`. -/
def CircuitBreaker.canExecute (s : CircuitBreaker) (now : Int) :
    Bool × CircuitBreaker :=
  match s.state with
  | .closed => (true, s)
  | .open =>
      if now - s.last_failure_time > s.timeout_ms then
        (true, { s with state := .halfOpen })
      else
        (false, s)
  | .halfOpen => (true, s)

/-- `CircuitBreaker.record_success(self)`. -/
def CircuitBreaker.recordSuccess (s : CircuitBreaker) : CircuitBreaker :=
  { s with
    failures := 0
    requests := s.requests + 1
    state := if s.state = .halfOpen then .closed else s.state }

/-- `CircuitBreaker.record_failure(self)` at wall-clock time `now` (ms).
The float test `(failures / requests) * 100 >= failure_threshold` is
modelled exactly as `failures * 100 ≥ failure_threshold * requests`. -/
def CircuitBreaker.recordFailure (s : CircuitBreaker) (now : Int) :
    CircuitBreaker :=
  let f := s.failures + 1
  let r := s.requests + 1
  { s with
    failures := f
    requests := r
    last_failure_time := now
    state :=
      if s.minimum_requests ≤ r ∧ s.failure_threshold * r ≤ f * 100 then
        .open
      else
        s.state }

/-- One proxied call against a breaker, as `ProxyHandler.handle_request`
drives it: `can_execute` gates the call; if admitted, the outcome
(`fail = true` for a raised exception, `false` for a returned response)
is recorded; a denied call records nothing. -/
def CircuitBreaker.callStep (s : CircuitBreaker) (now : Int) (fail : Bool) :
    CircuitBreaker :=
  let (ok, s1) := s.canExecute now
  if ok then
    if fail then s1.recordFailure now else s1.recordSuccess
  else
    s1

/-- Breaker states reachable from a fresh breaker by a sequence of
sequential proxied calls. -/
inductive CircuitBreaker.Reachable (cfg : CircuitBreakerSpec) :
    CircuitBreaker → Prop where
  | init : Reachable cfg (CircuitBreaker.init cfg)
  | step {s : CircuitBreaker} (now : Int) (fail : Bool) :
      Reachable cfg s → Reachable cfg (s.callStep now fail)

/-! ### Route matching (`app/core/proxy.py`, class `RouteManager`) -/

/-- `RouteManager._evaluate_single_matcher`, parametrised by the regex
matcher `rmatch pat s` standing for `bool(re.match(pat, s))`.  Note the
source uses the single field `matcher.value` both as the header /
parameter / cookie name being looked up and as the comparand. -/
def evalSingleMatcher (rmatch : String → String → Bool) (req : HRequest)
    (m : MatcherSpec) : Bool :=
  if m.name == "header" then
    let headerValue := dictGetD m.value req.headers
    if m.op == "exists" then headerValue != ""
    else if m.op == "equals" then headerValue == m.value
    else if m.op == "contains" then strIn m.value headerValue
    else if m.op == "regex" then rmatch m.value headerValue
    else false
  else if m.name == "query" then
    if m.op == "exists" then (dictGet m.value req.queryParams).isSome
    else if m.op == "equals" then dictGet m.value req.queryParams == some m.value
    else if m.op == "contains" then strIn m.value (dictGetD m.value req.queryParams)
    else false
  else if m.name == "cookie" then
    let cookieValue := dictGetD m.value req.cookies
    if m.op == "exists" then cookieValue != ""
    else if m.op == "equals" then cookieValue == m.value
    else if m.op == "contains" then strIn m.value cookieValue
    else false
  else false

/-- `RouteManager._evaluate_matchers`: `None` and the empty list are
trivially true; otherwise all matchers must pass. -/
def evalMatchers (rmatch : String → String → Bool) (req : HRequest)
    (matchers : Option (List MatcherSpec)) : Bool :=
  match matchers with
  | none => true
  | some ms => ms.all (evalSingleMatcher rmatch req)

/-- The sort key of `RouteManager._update_route_cache`:
`(-r.priority, -len(r.path), r.created_at)`. -/
def routeKey (r : RouteSpec) : Int × Int × Nat :=
  (-(r.priority : Int), -(r.path.toList.length : Int), r.created_at)

/-- Lexicographic comparison of route sort keys (the order in which
Python's `sorted` arranges the cache). -/
def keyLeB (a b : RouteSpec) : Bool :=
  (routeKey a).1 < (routeKey b).1 ||
    ((routeKey a).1 == (routeKey b).1 &&
      ((routeKey a).2.1 < (routeKey b).2.1 ||
        ((routeKey a).2.1 == (routeKey b).2.1 &&
          (routeKey a).2.2 ≤ (routeKey b).2.2)))

/-- Propositional form of `keyLeB`. -/
def keyLe (a b : RouteSpec) : Prop := keyLeB a b = true

instance : DecidableRel keyLe := fun a b => by
  unfold keyLe; infer_instance

instance : IsTotal RouteSpec keyLe := by
  constructor
  intro a b
  simp only [keyLe, keyLeB, routeKey, Bool.or_eq_true, Bool.and_eq_true,
    decide_eq_true_eq, beq_iff_eq]
  omega

instance : IsTrans RouteSpec keyLe := by
  constructor
  intro a b c
  simp only [keyLe, keyLeB, routeKey, Bool.or_eq_true, Bool.and_eq_true,
    decide_eq_true_eq, beq_iff_eq]
  omega

instance : IsRefl RouteSpec keyLe := by
  constructor
  intro a
  simp [keyLe, keyLeB, routeKey]

/-- `RouteManager._update_route_cache`: the cache is the route list
sorted by `(-priority, -len(path), created_at)`. -/
def updateRouteCache (routes : List RouteSpec) : List RouteSpec :=
  routes.insertionSort keyLe

/-- The candidate filter of `RouteManager.find_matching_route`:
`path.startswith(route.path) and method in route.methods`. -/
def routeCandidate (req : HRequest) (r : RouteSpec) : Bool :=
  pyStartsWith req.path r.path && req.method ∈ r.methods

/-- `RouteManager.find_matching_route` on an up-to-date cache: filter the
sorted cache to candidates, then return the first candidate whose
matchers all pass. -/
def findMatchingRoute (rmatch : String → String → Bool)
    (cache : List RouteSpec) (req : HRequest) : Option RouteSpec :=
  (cache.filter (routeCandidate req)).find?
    (fun r => evalMatchers rmatch req r.matchers)

/-- A route satisfies the lookup conditions for a request: its path is a
prefix of the request path, the method is allowed, and every matcher
passes. -/
def routeMatches (rmatch : String → String → Bool) (req : HRequest)
    (r : RouteSpec) : Bool :=
  routeCandidate req r && evalMatchers rmatch req r.matchers

/-- Lines 220–222 of `ProxyHandler.handle_request`: an absent lookup
result raises `HTTPException(status_code=404)`. -/
def routeOr404 (rmatch : String → String → Bool) (cache : List RouteSpec)
    (req : HRequest) : Except Nat RouteSpec :=
  match findMatchingRoute rmatch cache req with
  | none => .error 404
  | some r => .ok r

/-! ### Circuit-breaker registry (`RouteManager.get_circuit_breaker`) -/

/-- `RouteManager.get_circuit_breaker(self, backend_url, route)`: the
registry `self._circuit_breakers` is keyed by `backend_url` only; a
missing entry is created from the *given* route's `circuit_breaker`
configuration. -/
def getCircuitBreaker (breakers : List (String × CircuitBreaker))
    (backendUrl : String) (route : RouteSpec) :
    CircuitBreaker × List (String × CircuitBreaker) :=
  match (breakers.find? (fun p => p.1 == backendUrl)).map Prod.snd with
  | some cb => (cb, breakers)
  | none =>
      let cb := CircuitBreaker.init route.circuit_breaker
      (cb, breakers ++ [(backendUrl, cb)])

/-! ### Proxy engine (`app/core/proxy.py`, class `ProxyHandler`) -/

/-- `ProxyHandler._select_backend(self, route)`: returns `None` for an
empty backend list, otherwise `route.backends[0]` (the source comment
reads "For now, just return the first backend"). -/
def selectBackend (route : RouteSpec) : Option BackendSpec :=
  route.backends.head?

/-- The possible outcomes of one `self.client.request(...)` attempt.
`httpx` returns responses of every status code without raising
(`raise_for_status` is never called in the source), so an upstream 5xx
arrives as `.response`; raised exceptions are transport errors
(`httpx.TransportError` and the rest) or timeouts
(`httpx.TimeoutException`). -/
inductive AttemptOutcome where
  | response (status : Nat)
  | transportError
  | timeoutError
  deriving DecidableEq, Repr

/-- `ProxyHandler._should_retry(self, exception, retry_on)`.  The
`HTTPStatusError` branches (`"5xx"`, `"gateway-error"`) can never fire:
that exception type is only produced by `raise_for_status`, which the
engine never calls, so the raised exception is a transport error or a
timeout. -/
def shouldRetry (e : AttemptOutcome) (retryOn : List String) : Bool :=
  match e with
  | .response _ => false
  | .transportError => false
  | .timeoutError => retryOn.contains "timeout"

/-- The result of `ProxyHandler._proxy_request`: either a response
streamed back to the client, or a raised `HTTPException(502)`; each
carries the number of upstream attempts performed. -/
inductive ProxyResult where
  | ok (status : Nat) (attempts : Nat)
  | err (status : Nat) (attempts : Nat)
  deriving DecidableEq, Repr

/-- The retry loop of `ProxyHandler._proxy_request`
(`for attempt in range(retry_policy.max_retries + 1)`), with
`outcomes n` the result of the `n`-th dispatch (0-based) and
`remaining` the number of loop iterations still available, so the
source's `attempt < max_retries` test is `1 < remaining`.  A returned
response — whatever its status — is streamed back immediately; a raised
exception retries only while iterations remain and `_should_retry`
approves; once the loop exits, `HTTPException(502)` is raised. -/
def proxyAttempts (retryOn : List String)
    (outcomes : Nat → AttemptOutcome) (attempt : Nat) :
    Nat → ProxyResult
  | 0 => .err 502 attempt
  | remaining + 1 =>
    match outcomes attempt with
    | .response s => .ok s (attempt + 1)
    | e =>
        if 0 < remaining ∧ shouldRetry e retryOn then
          proxyAttempts retryOn outcomes (attempt + 1) remaining
        else
          .err 502 (attempt + 1)

/-- `ProxyHandler._proxy_request` for a whole request. -/
def proxyRequest (rp : RetryPolicy) (outcomes : Nat → AttemptOutcome) :
    ProxyResult :=
  proxyAttempts rp.retry_on outcomes 0 (rp.max_retries + 1)

/-- Lines 240–247 of `ProxyHandler.handle_request`: the breaker records
a success exactly when `_proxy_request` returns (any status), and a
failure exactly when it raises. -/
def recordsAsSuccess : ProxyResult → Bool
  | .ok _ _ => true
  | .err _ _ => false

/-! ### Authentication (`app/adapters/impl/simple_auth.py`) -/

/-- The claim set of a decoded JWT (`payload.get(...)` results). -/
structure JwtPayload where
  sub : Option String := none
  role : Option String := none
  jti : Option String := none
  exp : Option Int := none
  iat : Option Int := none
  iss : Option String := none
  deriving DecidableEq, Repr

/-- `AuthContext` (app/adapters/auth.py) as built by
`SimpleLocalAuthAdapter.authenticate`. -/
structure AuthContext where
  subject : String
  role : String
  token_id : Option String := none
  expires_at : Option Int := none
  deriving DecidableEq, Repr

/-- `jwt.decode(token, public_key, algorithms=["RS256"])` (PyJWT,
external library): `decodeRaw` abstracts signature verification and
claim parsing; on top of it PyJWT itself verifies a present `exp`
against the clock, raising `ExpiredSignatureError` (a subclass of
`InvalidTokenError`) when it is past. -/
def jwtDecode (decodeRaw : String → Option JwtPayload) (now : Int)
    (token : String) : Option JwtPayload :=
  match decodeRaw token with
  | none => none
  | some p =>
      match p.exp with
      | some e => if e < now then none else some p
      | none => some p

/-- Python truthiness of an optional string (`if jti and ...`,
`if not subject or not role`): `None` and `""` are falsy. -/
def truthy : Option String → Bool
  | none => false
  | some s => s != ""

/-- `SimpleLocalAuthAdapter.authenticate(self, request)`:
`authHeader` is `request.headers.get("Authorization")`, `decodeRaw`
abstracts the JWT library, `revoked` is `self._revoked_tokens`, `now`
is `time.time()`.  Every failure inside the `try` block (including an
`HTTPException` out of `_load_keys`) is caught and mapped to `None`. -/
def authenticate (authHeader : Option String)
    (decodeRaw : String → Option JwtPayload) (revoked : List String)
    (now : Int) : Option AuthContext :=
  match authHeader with
  | none => none
  | some authorization =>
      if ¬ pyStartsWith authorization "Bearer " then none
      else
        let token := pyDrop authorization 7
        match jwtDecode decodeRaw now token with
        | none => none
        | some payload =>
            -- `if jti and jti in self._revoked_tokens: return None`
            if truthy payload.jti &&
                revoked.contains (payload.jti.getD "") then none
            -- `if exp and exp < time.time(): return None`
            else if (match payload.exp with
                     | some e => e != 0 && e < now
                     | none => false) then none
            -- `if not subject or not role: return None`
            else if ¬ (truthy payload.sub && truthy payload.role) then none
            else
              some { subject := payload.sub.getD ""
                     role := payload.role.getD ""
                     token_id := payload.jti
                     expires_at := payload.exp }

/-! ### Route stores (`memory_routes.py`, `sqlite_routes.py`) -/

inductive ChangeEventType where
  | created
  | updated
  | deleted
  deriving DecidableEq, Repr

/-- `ChangeEvent` (app/adapters/routes.py). -/
structure ChangeEvent where
  event_type : ChangeEventType
  route_id : String
  route : Option RouteSpec := none
  deriving DecidableEq, Repr

/-- Result of `InMemoryRouteStore.delete_route`: the returned boolean,
the store's `self.routes` mapping afterwards, the snapshot contents
written by `_save_snapshot` calls, and the events handed to
`_notify_change`. -/
structure MemDeleteResult where
  result : Bool
  routes : List (String × RouteSpec)
  snapshots : List (List (String × RouteSpec))
  events : List ChangeEvent
  deriving DecidableEq, Repr

/-- `InMemoryRouteStore.delete_route(self, route_id)`: an absent id
returns `False` at once; otherwise the route is popped, a snapshot is
written, and a `DELETED` event is notified. -/
def memDeleteRoute (routes : List (String × RouteSpec))
    (routeId : String) : MemDeleteResult :=
  match (routes.find? (fun p => p.1 == routeId)).map Prod.snd with
  | none => { result := false, routes := routes, snapshots := [], events := [] }
  | some r =>
      let remaining := routes.filter (fun p => !(p.1 == routeId))
      { result := true
        routes := remaining
        snapshots := [remaining]
        events := [{ event_type := .deleted, route_id := routeId, route := some r }] }

/-- `SQLiteRouteStore.get_route(self, route_id)` over the `routes`
table, modelled as an association list from id to stored spec. -/
def sqlGetRoute (db : List (String × RouteSpec)) (routeId : String) :
    Option RouteSpec :=
  (db.find? (fun p => p.1 == routeId)).map Prod.snd

/-- `SQLiteRouteStore.delete_route(self, route_id)`: a pre-read of the
route; an absent id returns `False` before any SQL `DELETE`; otherwise
the row is deleted and a `DELETED` event notified.  Returns the
boolean, the table afterwards, and the notified events. -/
def sqlDeleteRoute (db : List (String × RouteSpec)) (routeId : String) :
    Bool × List (String × RouteSpec) × List ChangeEvent :=
  match sqlGetRoute db routeId with
  | none => (false, db, [])
  | some r =>
      (true, db.filter (fun p => !(p.1 == routeId)),
        [{ event_type := .deleted, route_id := routeId, route := some r }])

/-! ### The matcher document as the spec words it (§4.5) -/

/-- The matcher document of spec §4.5, which has a `key` field distinct
from `value` (the source's `MatcherSpec` has no `key` field). -/
structure SpecMatcherDoc where
  name : String
  key : String
  op : String
  value : String := ""
  deriving DecidableEq, Repr

/-- Matcher semantics following the words of spec §4.5: `key` selects
the header / query parameter / cookie, `value` is the comparand.
Stated here only to be compared with the source's
`evalSingleMatcher`. -/
def specMatcherEval (rmatch : String → String → Bool) (req : HRequest)
    (m : SpecMatcherDoc) : Bool :=
  let lookupIn : List (String × String) → Option String := dictGet m.key
  let table :=
    if m.name == "header" then some req.headers
    else if m.name == "query" then some req.queryParams
    else if m.name == "cookie" then some req.cookies
    else none
  match table with
  | none => false
  | some t =>
      match lookupIn t with
      | none => false
      | some v =>
          if m.op == "exists" then true
          else if m.op == "equals" then v == m.value
          else if m.op == "contains" then strIn m.value v
          else if m.op == "regex" then rmatch m.value v
          else false

/-! ### Concrete inputs used by the theorems below -/

/-- A regex engine instance (irrelevant to the scenarios below, which
use no regex matcher). -/
def rmatch0 : String → String → Bool := fun _ _ => false

/-- Upstream behaviour of spec §8 seed case 2: the first two dispatches
answer 500, the third answers 200. -/
def c1Outcomes : Nat → AttemptOutcome := fun n =>
  if n == 0 then .response 500
  else if n == 1 then .response 500
  else .response 200

/-- Retry policy of spec §8 seed case 2. -/
def c1Policy : RetryPolicy :=
  { max_retries := 2, backoff_ms := 10, retry_on := ["5xx"] }

/-- A policy that retries on timeout once. -/
def c8Policy : RetryPolicy :=
  { max_retries := 1, backoff_ms := 10, retry_on := ["timeout"] }

/-- Upstream behaviour where every dispatch exceeds the per-attempt
deadline (`httpx.TimeoutException`). -/
def c8Outcomes : Nat → AttemptOutcome := fun _ => .timeoutError

/-- A route with three weighted backends (weights 100, 200, 50). -/
def wrrRoute : RouteSpec :=
  { id := "wrr"
    path := "/"
    methods := ["GET"]
    backends :=
      [ { url := "http://backend1.com", weight := 100 }
      , { url := "http://backend2.com", weight := 200 }
      , { url := "http://backend3.com", weight := 50 } ] }

/-- Route `A` of spec §8 seed case 4: `path=/`, `prio=0`. -/
def routeA : RouteSpec :=
  { id := "a", path := "/", methods := ["GET"]
    backends := [{ url := "http://u", weight := 100 }]
    priority := 0, created_at := 0 }

/-- Route `B` of spec §8 seed case 4: `path=/a`, `prio=0`. -/
def routeB : RouteSpec :=
  { id := "b", path := "/a", methods := ["GET"]
    backends := [{ url := "http://u", weight := 100 }]
    priority := 0, created_at := 1 }

/-- The request `GET /a/b` of spec §8 seed case 4. -/
def reqAB : HRequest := { method := "GET", path := "/a/b" }

/-- A request no route of `[routeA, routeB]` accepts (method POST). -/
def reqPost : HRequest := { method := "POST", path := "/a/b" }

/-- The request of spec §8 seed case 5 carrying `X-Env: prod`. -/
def reqEnv : HRequest :=
  { method := "GET", path := "/x", headers := [("X-Env", "prod")] }

/-- Breaker configuration `minimum_requests=2, failure_threshold=50`
(spec §8 seed case 3 and P6 with `N=2, T=50`). -/
def c3Cfg : CircuitBreakerSpec :=
  { failure_threshold := 50, minimum_requests := 2, timeout_ms := 30000 }

/-- The breaker after the two recorded calls `failure; success`
(a window of the last 2 calls with failure rate exactly 50%). -/
def c3State : CircuitBreaker :=
  ((CircuitBreaker.init c3Cfg).callStep 0 true).callStep 1 false

/-- Breaker configuration `minimum_requests=1, failure_threshold=50,
timeout_ms=1000`. -/
def c4Cfg : CircuitBreakerSpec :=
  { failure_threshold := 50, minimum_requests := 1, timeout_ms := 1000 }

/-- A breaker of configuration `c4Cfg` driven into Open by one recorded
failure at time 0. -/
def c4Open : CircuitBreaker :=
  (CircuitBreaker.init c4Cfg).callStep 0 true

/-- A route whose breaker configuration is the schema default. -/
def routeCbA : RouteSpec :=
  { id := "cb-a", path := "/a", methods := ["GET"]
    backends := [{ url := "http://shared:9000", weight := 100 }]
    circuit_breaker :=
      { failure_threshold := 50, minimum_requests := 20, timeout_ms := 30000 } }

/-- A distinct route dispatching to the same backend url as `routeCbA`
but with a different breaker configuration. -/
def routeCbB : RouteSpec :=
  { id := "cb-b", path := "/b", methods := ["GET"]
    backends := [{ url := "http://shared:9000", weight := 100 }]
    circuit_breaker :=
      { failure_threshold := 10, minimum_requests := 5, timeout_ms := 60000 } }

/-- The breaker registry after the first request of `routeCbA` to the
shared backend url. -/
def c6Registry : List (String × CircuitBreaker) :=
  (getCircuitBreaker [] "http://shared:9000" routeCbA).2

/-- A JWT verifier recognising one token whose payload carries the
empty-string `jti`, a valid subject and role, and no `exp`. -/
def c7DecodeRaw : String → Option JwtPayload := fun t =>
  if t == "tok-empty-jti" then
    some { sub := some "alice", role := some "captain", jti := some "" }
  else none

/-! ### Theorems -/

/-- C1: the claim expects an upstream 5xx to be recorded as a breaker
failure and retried under `retry_policy.retry_on=[5xx]`, with the
scenario 500, 500, 200 reaching the client as 200 with attempts=3.  The
engine does neither: `httpx` returns 5xx responses without raising and
`raise_for_status` is never called, so the first 500 is streamed back to
the client after one attempt and `handle_request` records it as a
breaker *success*.  (The repo's own test
`test_proxy.py::test_backend_error_with_retry` asserts the claimed
behaviour, against this.) -/
theorem retry_on_5xx_not_implemented :
    proxyRequest c1Policy c1Outcomes = .ok 500 1 ∧
    recordsAsSuccess (proxyRequest c1Policy c1Outcomes) = true := by
  decide

/-- C8: a final attempt that fails with a timeout is claimed to surface
as 504; the engine raises `HTTPException(502)` for every exhausted retry
loop regardless of the exception's class, so the client sees 502.  (The
repo's own test `test_proxy.py::test_timeout_handling` asserts 504.)
Here both attempts of a `max_retries=1, retry_on=[timeout]` policy time
out and the result is a 502 after 2 attempts, not a 504. -/
theorem final_timeout_yields_502 :
    proxyRequest c8Policy c8Outcomes = .err 502 2 := by
  decide

/-- C9: backend selection is claimed to be weighted deterministic
round-robin over a per-route counter, with weight-0 backends valid but
never selected.  `_select_backend` keeps no counter and always returns
`route.backends[0]` (its comment reads "TODO: Implement proper load
balancing"), so the weight-200 backend of `wrrRoute` is never chosen;
moreover the schema constraint `weight: ge=1` rejects weight 0
outright. -/
theorem select_backend_ignores_weights :
    selectBackend wrrRoute = some { url := "http://backend1.com", weight := 100 } ∧
    validBackendWeight 0 = false := by
  decide

/-- C5: the claim gives matchers a `key` field selecting the header and
a `value` comparand.  The source's `MatcherSpec` has no `key` field, and
`_evaluate_single_matcher` uses `matcher.value` both as the lookup key
and as the comparand: the spec-§4.5 matcher `{header, key=X-Env, equals,
value=prod}` accepts a request carrying `X-Env: prod`, while the
source's matcher evaluates to false whether its single `value` field is
set to `"prod"` (looks up the header named `prod`) or to `"X-Env"`
(compares `"prod"` with the string `"X-Env"`). -/
theorem matcher_conflates_key_and_value :
    specMatcherEval rmatch0 reqEnv
      { name := "header", key := "X-Env", op := "equals", value := "prod" } = true ∧
    evalSingleMatcher rmatch0 reqEnv
      { name := "header", value := "prod", op := "equals" } = false ∧
    evalSingleMatcher rmatch0 reqEnv
      { name := "header", value := "X-Env", op := "equals" } = false := by
  decide

/-- C3 counterexample: with `minimum_requests=2, failure_threshold=50`,
the two recorded calls `failure; success` have failure rate 50% ≥ 50%
over the window of the last 2 calls, so the claim puts the breaker in
Open with the next call denied.  The source keeps no sliding window —
`record_success` resets `failures` to 0 — so the breaker stays Closed
and the next call is admitted. -/
theorem sliding_window_counterexample :
    c3State.state = .closed ∧ (c3State.canExecute 2).1 = true := by
  decide

/-- C3 (amended): the breaker counts requests cumulatively and failures
consecutively since the last success; after a recorded failure that
brings the cumulative call count to at least `minimum_requests` with
`failures/requests × 100 ≥ failure_threshold`, the breaker is Open, and
a call within `timeout_ms` of that failure is denied. -/
theorem breaker_opens_on_cumulative_rate (s : CircuitBreaker) (now t : Int)
    (hmin : s.minimum_requests ≤ s.requests + 1)
    (hrate : s.failure_threshold * (s.requests + 1) ≤ (s.failures + 1) * 100) :
    (s.recordFailure now).state = .open ∧
    (t - now ≤ s.timeout_ms →
      (s.recordFailure now).canExecute t = (false, s.recordFailure now)) := by
  have hcond : s.minimum_requests ≤ s.requests + 1 ∧
      s.failure_threshold * (s.requests + 1) ≤ (s.failures + 1) * 100 :=
    ⟨hmin, hrate⟩
  constructor
  · simp [CircuitBreaker.recordFailure, hmin, hrate]
  · intro ht
    have hstate : (s.recordFailure now).state = .open := by
      simp [CircuitBreaker.recordFailure, hmin, hrate]
    have hlast : (s.recordFailure now).last_failure_time = now := rfl
    have htmo : (s.recordFailure now).timeout_ms = s.timeout_ms := rfl
    simp [CircuitBreaker.canExecute, hstate, hlast, htmo]
    omega

/-- Witness for `breaker_opens_on_cumulative_rate` at
`minimum_requests=1, failure_threshold=50` and a first recorded
failure at time 0, probed at time 100. -/
theorem breaker_opens_witness :
    ((CircuitBreaker.init ⟨50, 1, 30000⟩).recordFailure 0).state = .open ∧
    ((CircuitBreaker.init ⟨50, 1, 30000⟩).recordFailure 0).canExecute 100 =
      (false, (CircuitBreaker.init ⟨50, 1, 30000⟩).recordFailure 0) :=
  ⟨(breaker_opens_on_cumulative_rate (CircuitBreaker.init ⟨50, 1, 30000⟩)
      0 100 (by decide) (by decide)).1,
   (breaker_opens_on_cumulative_rate (CircuitBreaker.init ⟨50, 1, 30000⟩)
      0 100 (by decide) (by decide)).2 (by decide)⟩

/-- C6 counterexample: `get_circuit_breaker` keys the registry by
`backend_url` alone.  `routeCbA` and `routeCbB` are distinct routes
dispatching to the same backend url; the second lookup returns the very
breaker created for the first route, carrying `routeCbA`'s
`failure_threshold=50` rather than `routeCbB`'s 10 — the breakers are
neither independent nor configured from the route in the claimed key. -/
theorem breaker_shared_across_routes :
    (getCircuitBreaker c6Registry "http://shared:9000" routeCbB).1 =
      (getCircuitBreaker [] "http://shared:9000" routeCbA).1 ∧
    (getCircuitBreaker c6Registry "http://shared:9000" routeCbB).1.failure_threshold = 50 ∧
    routeCbB.circuit_breaker.failure_threshold = 10 := by
  decide

/-- C6 (amended): circuit-breaker state is keyed by the backend url
alone: a url already in the registry yields its stored breaker with the
registry unchanged (whatever route is asking), and a missing url creates
a breaker from the asking route's `circuit_breaker` configuration. -/
theorem breaker_keyed_by_url (breakers : List (String × CircuitBreaker))
    (url : String) (r : RouteSpec) :
    (∀ cb, (breakers.find? (fun p => p.1 == url)).map Prod.snd = some cb →
      getCircuitBreaker breakers url r = (cb, breakers)) ∧
    ((breakers.find? (fun p => p.1 == url)).map Prod.snd = none →
      getCircuitBreaker breakers url r =
        (CircuitBreaker.init r.circuit_breaker,
         breakers ++ [(url, CircuitBreaker.init r.circuit_breaker)])) := by
  constructor
  · intro cb h
    simp [getCircuitBreaker, h]
  · intro h
    simp [getCircuitBreaker, h]

/-- Witness for `breaker_keyed_by_url`: the empty registry creates a
breaker from `routeCbA`'s configuration, and the resulting registry
returns that same breaker to `routeCbB`. -/
theorem breaker_keyed_by_url_witness :
    getCircuitBreaker [] "http://shared:9000" routeCbA =
      (CircuitBreaker.init routeCbA.circuit_breaker,
       [("http://shared:9000", CircuitBreaker.init routeCbA.circuit_breaker)]) ∧
    getCircuitBreaker c6Registry "http://shared:9000" routeCbB =
      (CircuitBreaker.init routeCbA.circuit_breaker, c6Registry) :=
  ⟨by
    have h := (breaker_keyed_by_url [] "http://shared:9000" routeCbA).2 (by decide)
    simpa using h,
   by
    have h := (breaker_keyed_by_url c6Registry "http://shared:9000" routeCbB).1
      (CircuitBreaker.init routeCbA.circuit_breaker) (by decide)
    simpa using h⟩

/-- C10: deleting an absent route id from either concrete store returns
`False` with no side effect: the stored mapping/table is unchanged, no
snapshot is written, and no `DELETED` event reaches any watcher. -/
theorem delete_absent_route_no_effect :
    (∀ (routes : List (String × RouteSpec)) (rid : String),
      routes.find? (fun p => p.1 == rid) = none →
      memDeleteRoute routes rid =
        { result := false, routes := routes, snapshots := [], events := [] }) ∧
    (∀ (db : List (String × RouteSpec)) (rid : String),
      sqlGetRoute db rid = none →
      sqlDeleteRoute db rid = (false, db, [])) := by
  constructor
  · intro routes rid h
    simp [memDeleteRoute, h]
  · intro db rid h
    simp [sqlDeleteRoute, h]

/-- Invariant of sequential breaker executions: failures never exceed
requests, and an Open breaker earned its state — its cumulative counters
satisfy the opening condition. -/
theorem cb_reachable_inv {cfg : CircuitBreakerSpec} {s : CircuitBreaker}
    (h : CircuitBreaker.Reachable cfg s) :
    s.failures ≤ s.requests ∧
    (s.state = .open →
      s.minimum_requests ≤ s.requests ∧
      s.failure_threshold * s.requests ≤ s.failures * 100) := by
  induction h with
  | init => simp [CircuitBreaker.init]
  | @step s now fail h ih =>
    obtain ⟨hfr, hopen⟩ := ih
    cases hst : s.state
    · -- state CLOSED: the call is admitted on the unchanged breaker
      have hcall : s.callStep now fail =
          if fail then s.recordFailure now else s.recordSuccess := by
        simp [CircuitBreaker.callStep, CircuitBreaker.canExecute, hst]
      rw [hcall]
      cases fail
      · simp [CircuitBreaker.recordSuccess, hst]
      · simp only [if_pos]
        simp only [CircuitBreaker.recordFailure]
        refine ⟨by omega, ?_⟩
        intro hS
        split at hS
        · next hc => exact hc
        · rw [hst] at hS; simp at hS
    · -- state OPEN: admitted as a HalfOpen probe after the timeout,
      -- denied (and left unchanged) before it
      by_cases ht : now - s.last_failure_time > s.timeout_ms
      · have hcall : s.callStep now fail =
            if fail then ({ s with state := .halfOpen }).recordFailure now
            else ({ s with state := .halfOpen }).recordSuccess := by
          simp [CircuitBreaker.callStep, CircuitBreaker.canExecute, hst, ht]
        rw [hcall]
        cases fail
        · simp [CircuitBreaker.recordSuccess]
        · simp only [if_pos]
          simp only [CircuitBreaker.recordFailure]
          refine ⟨by omega, ?_⟩
          intro hS
          split at hS
          · next hc => exact hc
          · simp at hS
      · have hcall : s.callStep now fail = s := by
          simp [CircuitBreaker.callStep, CircuitBreaker.canExecute, hst, ht]
        rw [hcall]
        exact ⟨hfr, hopen⟩
    · -- state HALF_OPEN: the call is admitted on the unchanged breaker
      have hcall : s.callStep now fail =
          if fail then s.recordFailure now else s.recordSuccess := by
        simp [CircuitBreaker.callStep, CircuitBreaker.canExecute, hst]
      rw [hcall]
      cases fail
      · simp [CircuitBreaker.recordSuccess, hst]
      · simp only [if_pos]
        simp only [CircuitBreaker.recordFailure]
        refine ⟨by omega, ?_⟩
        intro hS
        split at hS
        · next hc => exact hc
        · rw [hst] at hS; simp at hS

/-- C4 counterexample: `c4Open` has been Open since time 0 with
`timeout_ms=1000`.  At time 2000 a first admission query succeeds and
moves the breaker to HalfOpen; the claim requires a second admission
query, made before the probe's outcome is recorded, to be denied — but
`can_execute` admits every call in the HALF_OPEN state, so it is
admitted too. -/
theorem half_open_second_call_admitted :
    (c4Open.canExecute 2000).1 = true ∧
    (c4Open.canExecute 2000).2.state = .halfOpen ∧
    ((c4Open.canExecute 2000).2.canExecute 2000).1 = true := by
  decide

/-- C4 (amended): whenever a sequentially reached breaker has been Open
for more than `timeout_ms`, the next admission query succeeds and moves
it to HalfOpen; the implementation does not limit HalfOpen to a single
probe — further admission queries before the probe's outcome is
recorded succeed as well; a recorded success transitions the breaker to
Closed and a recorded failure (given `failure_threshold ≤ 100`, as the
schema guarantees) transitions it back to Open. -/
theorem half_open_probe_spec {cfg : CircuitBreakerSpec}
    {s : CircuitBreaker} (h : CircuitBreaker.Reachable cfg s)
    (hT : s.failure_threshold ≤ 100) (now now2 : Int)
    (hopen : s.state = .open)
    (htime : s.timeout_ms < now - s.last_failure_time) :
    (s.canExecute now).1 = true ∧
    (s.canExecute now).2.state = .halfOpen ∧
    ((s.canExecute now).2.canExecute now2).1 = true ∧
    (s.canExecute now).2.recordSuccess.state = .closed ∧
    ((s.canExecute now).2.recordFailure now2).state = .open := by
  obtain ⟨hfr, hinv⟩ := cb_reachable_inv h
  obtain ⟨hmin, hrate⟩ := hinv hopen
  have hce : s.canExecute now = (true, { s with state := .halfOpen }) := by
    simp [CircuitBreaker.canExecute, hopen, htime]
  rw [hce]
  refine ⟨rfl, rfl, rfl, ?_, ?_⟩
  · simp [CircuitBreaker.recordSuccess]
  · have hcond : s.minimum_requests ≤ s.requests + 1 ∧
        s.failure_threshold * (s.requests + 1) ≤ (s.failures + 1) * 100 := by
      constructor
      · omega
      · calc s.failure_threshold * (s.requests + 1)
            = s.failure_threshold * s.requests + s.failure_threshold := by ring
          _ ≤ s.failures * 100 + 100 := by omega
          _ = (s.failures + 1) * 100 := by ring
    simp [CircuitBreaker.recordFailure, hcond.1, hcond.2]

/-- Witness for `half_open_probe_spec` on the concrete Open breaker
`c4Open`, probed at times 2000 and 2500. -/
theorem half_open_probe_witness :
    (c4Open.canExecute 2000).1 = true ∧
    (c4Open.canExecute 2000).2.state = .halfOpen ∧
    ((c4Open.canExecute 2000).2.canExecute 2500).1 = true ∧
    (c4Open.canExecute 2000).2.recordSuccess.state = .closed ∧
    ((c4Open.canExecute 2000).2.recordFailure 2500).state = .open :=
  half_open_probe_spec
    (CircuitBreaker.Reachable.step 0 true CircuitBreaker.Reachable.init)
    (by decide) 2000 2500 (by decide) (by decide)

/-- The first element of a sorted list satisfying a predicate is minimal
among the satisfying elements. -/
theorem find_first_min (p : RouteSpec → Bool) :
    ∀ (l : List RouteSpec) (r : RouteSpec), List.Sorted keyLe l →
      l.find? p = some r → p r = true ∧ ∀ x ∈ l, p x = true → keyLe r x := by
  intro l
  induction l with
  | nil => intro r _ h; simp at h
  | cons a t ih =>
    intro r hs h
    rcases List.sorted_cons.mp hs with ⟨ha, ht⟩
    by_cases hpa : p a = true
    · rw [List.find?_cons_of_pos _ hpa] at h
      injection h with h
      subst h
      refine ⟨hpa, ?_⟩
      intro x hx _
      rcases List.mem_cons.mp hx with h1 | h1
      · subst h1; exact refl_of keyLe x
      · exact ha x h1
    · rw [List.find?_cons_of_neg _ hpa] at h
      rcases ih r ht h with ⟨h1, h2⟩
      refine ⟨h1, ?_⟩
      intro x hx hpx
      rcases List.mem_cons.mp hx with h3 | h3
      · subst h3; exact absurd hpx hpa
      · exact h2 x h3 hpx

/-- C2: on the cache rebuilt by `_update_route_cache` (the route list
sorted by `(-priority, -len(path), created_at)`), `find_matching_route`
returns a route satisfying the lookup conditions — request path has the
route's path as a prefix, method allowed, all matchers pass — that is
first (minimal) in the sort-key order among all satisfying routes, and
returns absent exactly when no route satisfies them, in which case
`handle_request` raises 404. -/
theorem route_lookup_spec (rmatch : String → String → Bool)
    (routes : List RouteSpec) (req : HRequest) :
    (∀ r, findMatchingRoute rmatch (updateRouteCache routes) req = some r →
      routeMatches rmatch req r = true ∧ r ∈ routes ∧
      ∀ r' ∈ routes, routeMatches rmatch req r' = true → keyLe r r') ∧
    (findMatchingRoute rmatch (updateRouteCache routes) req = none →
      (∀ r' ∈ routes, routeMatches rmatch req r' = false) ∧
      routeOr404 rmatch (updateRouteCache routes) req = Except.error 404) := by
  have hperm : (updateRouteCache routes).Perm routes :=
    List.perm_insertionSort keyLe routes
  have hsorted : List.Sorted keyLe (updateRouteCache routes) :=
    List.sorted_insertionSort keyLe routes
  have hsf : List.Sorted keyLe
      ((updateRouteCache routes).filter (routeCandidate req)) :=
    hsorted.filter _
  constructor
  · intro r h
    unfold findMatchingRoute at h
    obtain ⟨h1, h2⟩ := find_first_min _ _ r hsf h
    have hmem := List.mem_of_find?_eq_some h
    have hmc := List.mem_filter.mp hmem
    refine ⟨?_, hperm.subset hmc.1, ?_⟩
    · unfold routeMatches
      rw [hmc.2, h1]
      rfl
    · intro r' hr' hm'
      unfold routeMatches at hm'
      obtain ⟨hcand, hmat⟩ := Bool.and_eq_true_iff.mp hm'
      exact h2 r'
        (List.mem_filter.mpr ⟨hperm.mem_iff.mpr hr', hcand⟩) hmat
  · intro h
    have hnone := List.find?_eq_none.mp h
    constructor
    · intro r' hr'
      by_cases hcand : routeCandidate req r' = true
      · have hmem : r' ∈ (updateRouteCache routes).filter (routeCandidate req) :=
          List.mem_filter.mpr ⟨hperm.mem_iff.mpr hr', hcand⟩
        have hno := hnone r' hmem
        unfold routeMatches
        rw [hcand]
        simpa using hno
      · unfold routeMatches
        rw [Bool.not_eq_true] at hcand
        rw [hcand]
        rfl
    · unfold routeOr404
      rw [h]

/-- Witness for `route_lookup_spec`: over the routes of spec §8 seed
case 4 (`routeA` with `path=/`, `routeB` with `path=/a`, equal
priority), `GET /a/b` resolves to `routeB` (longest path wins), and the
`POST` request matches nothing, yielding 404. -/
theorem route_lookup_witness :
    (routeMatches rmatch0 reqAB routeB = true ∧ routeB ∈ [routeA, routeB] ∧
      ∀ r' ∈ [routeA, routeB],
        routeMatches rmatch0 reqAB r' = true → keyLe routeB r') ∧
    ((∀ r' ∈ [routeA, routeB], routeMatches rmatch0 reqPost r' = false) ∧
      routeOr404 rmatch0 (updateRouteCache [routeA, routeB]) reqPost =
        Except.error 404) :=
  ⟨(route_lookup_spec rmatch0 [routeA, routeB] reqAB).1 routeB (by decide),
   (route_lookup_spec rmatch0 [routeA, routeB] reqPost).2 (by decide)⟩

/-- C7 counterexample: the token decodes to a payload whose `jti` is the
empty string, and that `jti` *is* in the revocation set, yet
`authenticate` returns a context: the guard `if jti and jti in
self._revoked_tokens` treats the falsy `""` as "no jti" and skips the
revocation check.  The claim requires an absent result whenever the
token's `jti` is in the revocation set. -/
theorem empty_jti_revocation_bypassed :
    authenticate (some "Bearer tok-empty-jti") c7DecodeRaw [""] 1000 =
      some { subject := "alice", role := "captain",
             token_id := some "", expires_at := none } := by
  decide

/-- The modelled PyJWT `jwt.decode` only returns payloads whose `exp`,
when present, has not passed. -/
theorem jwtDecode_exp_le (decodeRaw : String → Option JwtPayload)
    (now : Int) (token : String) (p : JwtPayload) (e : Int)
    (hd : jwtDecode decodeRaw now token = some p) (he : p.exp = some e) :
    now ≤ e := by
  unfold jwtDecode at hd
  split at hd
  · exact absurd hd (by simp)
  · split at hd
    · split at hd
      · exact absurd hd (by simp)
      · next hlt =>
        next ev hev =>
        injection hd with hd
        subst hd
        rw [hev] at he
        injection he with he
        omega
    · next hnone =>
      injection hd with hd
      subst hd
      rw [hnone] at he
      exact absurd he (by simp)

/-- C7 (amended): `authenticate` is total and returns an absent result
on every negative outcome — missing or non-Bearer Authorization header,
a token the JWT library rejects (invalid signature or past `exp`), or a
*nonempty* `jti` in the in-process revocation set — and a returned
context carries exactly the token's (nonempty) subject and role,
unrevoked and unexpired. -/
theorem authenticate_spec (decodeRaw : String → Option JwtPayload)
    (revoked : List String) (now : Int) (hdr : Option String) :
    (hdr = none → authenticate hdr decodeRaw revoked now = none) ∧
    (∀ a, hdr = some a → pyStartsWith a "Bearer " = false →
      authenticate hdr decodeRaw revoked now = none) ∧
    (∀ a, hdr = some a → jwtDecode decodeRaw now (pyDrop a 7) = none →
      authenticate hdr decodeRaw revoked now = none) ∧
    (∀ a p e, hdr = some a → decodeRaw (pyDrop a 7) = some p →
      p.exp = some e → e < now →
      authenticate hdr decodeRaw revoked now = none) ∧
    (∀ a p j, hdr = some a → jwtDecode decodeRaw now (pyDrop a 7) = some p →
      p.jti = some j → j ≠ "" → revoked.contains j = true →
      authenticate hdr decodeRaw revoked now = none) ∧
    (∀ ctx, authenticate hdr decodeRaw revoked now = some ctx →
      ∃ a p, hdr = some a ∧ pyStartsWith a "Bearer " = true ∧
        jwtDecode decodeRaw now (pyDrop a 7) = some p ∧
        p.sub = some ctx.subject ∧ p.role = some ctx.role ∧
        ctx.subject ≠ "" ∧ ctx.role ≠ "" ∧
        ctx.token_id = p.jti ∧ ctx.expires_at = p.exp ∧
        (∀ j, p.jti = some j → j ≠ "" → revoked.contains j = false) ∧
        (∀ e, p.exp = some e → now ≤ e)) := by
  refine ⟨?_, ?_, ?_, ?_, ?_, ?_⟩
  · intro h
    rw [h]
    rfl
  · intro a ha hb
    rw [ha]
    simp [authenticate, hb]
  · intro a ha hd
    rw [ha]
    simp [authenticate, hd]
  · intro a p e ha hd he hlt
    rw [ha]
    have hnone : jwtDecode decodeRaw now (pyDrop a 7) = none := by
      simp [jwtDecode, hd, he, hlt]
    simp [authenticate, hnone]
  · intro a p j ha hd hj hne hrev
    rw [ha]
    have hcond : (truthy p.jti && revoked.contains (p.jti.getD "")) = true := by
      have htr : truthy p.jti = true := by
        simp only [truthy, hj]
        simpa using hne
      have hget : p.jti.getD "" = j := by rw [hj]; rfl
      rw [htr, hget, hrev]
      rfl
    simp only [authenticate]
    split
    · rfl
    · rw [hd]
      simp only [hcond]
      simp
  · intro ctx hctx
    rcases hdr with _ | a
    · simp [authenticate] at hctx
    · simp only [authenticate] at hctx
      by_cases hb : pyStartsWith a "Bearer " = true
      · rw [if_neg (by simp [hb])] at hctx
        rcases hd : jwtDecode decodeRaw now (pyDrop a 7) with _ | p
        · rw [hd] at hctx; exact absurd hctx (by simp)
        · rw [hd] at hctx
          simp only at hctx
          by_cases hrv : (truthy p.jti && revoked.contains (p.jti.getD "")) = true
          · rw [if_pos (by simpa using hrv)] at hctx
            exact absurd hctx (by simp)
          · rw [if_neg (by simpa using hrv)] at hctx
            by_cases hex : (match p.exp with
                            | some e => e != 0 && decide (e < now)
                            | none => false) = true
            · rw [if_pos (by simpa using hex)] at hctx
              exact absurd hctx (by simp)
            · rw [if_neg (by simpa using hex)] at hctx
              by_cases hsr : (truthy p.sub && truthy p.role) = true
              · rw [if_neg (by simp [hsr])] at hctx
                injection hctx with hctx2
                obtain ⟨hsub, hrole⟩ : truthy p.sub = true ∧ truthy p.role = true := by
                  simpa using hsr
                refine ⟨a, p, rfl, hb, hd, ?_, ?_, ?_, ?_, ?_, ?_, ?_, ?_⟩
                · rcases hps : p.sub with _ | sv
                  · rw [hps] at hsub; simp [truthy] at hsub
                  · rw [← hctx2, hps]; rfl
                · rcases hpr : p.role with _ | rv
                  · rw [hpr] at hrole; simp [truthy] at hrole
                  · rw [← hctx2, hpr]; rfl
                · rcases hps : p.sub with _ | sv
                  · rw [hps] at hsub; simp [truthy] at hsub
                  · rw [hps] at hsub
                    rw [← hctx2, hps]
                    simpa [truthy] using hsub
                · rcases hpr : p.role with _ | rv
                  · rw [hpr] at hrole; simp [truthy] at hrole
                  · rw [hpr] at hrole
                    rw [← hctx2, hpr]
                    simpa [truthy] using hrole
                · rw [← hctx2]
                · rw [← hctx2]
                · intro j hj hne
                  rw [hj] at hrv
                  cases hb2 : revoked.contains j with
                  | false => rfl
                  | true =>
                    exfalso
                    apply hrv
                    have : truthy (some j) = true := by
                      simp only [truthy]
                      simpa using hne
                    rw [this]
                    simpa using hb2
                · intro e he
                  exact jwtDecode_exp_le decodeRaw now (pyDrop a 7) p e hd he
              · rw [if_pos (by simpa using hsr)] at hctx
                exact absurd hctx (by simp)
      · rw [if_pos (by simpa using hb)] at hctx
        exact absurd hctx (by simp)

/-- Witness for `authenticate_spec`: a missing Authorization header
authenticates to an absent context. -/
theorem authenticate_spec_witness :
    authenticate none c7DecodeRaw [] 0 = none :=
  (authenticate_spec c7DecodeRaw [] 0 none).1 rfl

/-- Witness for `delete_absent_route_no_effect` on a store holding only
`routeA` under id `"a"`, deleting the absent id `"zzz"`. -/
theorem delete_absent_route_witness :
    memDeleteRoute [("a", routeA)] "zzz" =
      { result := false, routes := [("a", routeA)], snapshots := [], events := [] } ∧
    sqlDeleteRoute [("a", routeA)] "zzz" = (false, [("a", routeA)], []) :=
  ⟨(delete_absent_route_no_effect).1 [("a", routeA)] "zzz" (by decide),
   (delete_absent_route_no_effect).2 [("a", routeA)] "zzz" (by decide)⟩

end Harbor
